import Mathlib

/-!
Verification development for the browser client in src/static/js/app.js.

The JavaScript file is a thin client: a localStorage-backed session store,
a fetch wrapper (apiRequest), and DOM controllers (handleLogin,
handleSignup, loadTasks, handleNewTask, per-row delete buttons).

Shallow embedding conventions:
- localStorage holds at most the one key devtask_token; the store is an
  `Option String` (none = key absent, matching getItem returning null).
- Network effects are parameters: each controller takes the outcome of
  its HTTP call as an `Except String _` value, where the `String` is the
  message of the Error thrown by apiRequest.
- JSON numbers are IEEE doubles in JavaScript; task hours are modelled
  as rationals, exact for the dyadic literals the claims use. JSON
  values reaching the apiRequest error path are modelled by `Js`
  (null, booleans, strings, objects); numeric and array JSON values do
  not occur in any claim about that path and are omitted from `Js`.
- DOM writes are modelled as returned values (view data), since the
  handlers only ever write, never read back, the elements involved.
-/

namespace App

/-- Session store content: the value under the devtask_token key, or none
when the key is absent. Mirrors getToken at src/static/js/app.js lines 3-5,
where getItem returns the string or null. -/
def getToken (store : Option String) : Option String := store

/-- setToken at src/static/js/app.js lines 7-13: a truthy token is stored
via setItem, a falsy one (null, undefined, empty string) removes the key. -/
def setToken (token : Option String) (store : Option String) : Option String :=
  match token with
  | some t => if t = "" then none else some t
  | none => none

/-- A header object, keyed case-sensitively as JavaScript object keys are. -/
abbrev HeaderMap := String → Option String

/-- Object.assign semantics for one source object: keys of the second
argument override keys of the first. -/
def objAssign (base extra : HeaderMap) : HeaderMap :=
  fun k => match extra k with
  | some v => some v
  | none => base k

/-- The default header object literal at src/static/js/app.js line 18. -/
def defaultHeaders : HeaderMap :=
  fun k => if k = "Content-Type" then some "application/json" else none

/-- The empty object literal `\x7b\x7d`. -/
def emptyHeaders : HeaderMap := fun _ => none

/-- The conditional Authorization object at src/static/js/app.js line 20:
`token ? \x7b Authorization: ... \x7d : \x7b\x7d`, where the stored token is
truthy exactly when it is a non-empty string. -/
def authHeaders (token : Option String) : HeaderMap :=
  match token with
  | some t =>
    if t = "" then emptyHeaders
    else fun k => if k = "Authorization" then some ("Bearer " ++ t) else none
  | none => emptyHeaders

/-- Header computation of apiRequest, src/static/js/app.js lines 16-21:
Object.assign(defaults, options.headers, auth-object). -/
def apiRequestHeaders (callerHeaders : HeaderMap) (token : Option String) : HeaderMap :=
  objAssign (objAssign defaultHeaders callerHeaders) (authHeaders token)

/-- JSON values as seen by the apiRequest error path. Numeric and array
values are omitted: no claim concerns them there, and JavaScript number
formatting is specific to IEEE doubles. -/
inductive Js where
| null : Js
| bool (b : Bool) : Js
| str (s : String) : Js
| obj (fields : List (String × Js)) : Js

/-- JavaScript truthiness of a Js value. -/
def Js.truthyB : Js → Bool
  | Js.null => false
  | Js.bool b => b
  | Js.str s => if s = "" then false else true
  | Js.obj _ => true

/-- JavaScript string coercion String(v) for the modelled values, applied
by the Error constructor to a non-string message. -/
def Js.coerceString : Js → String
  | Js.null => "null"
  | Js.bool b => if b then "true" else "false"
  | Js.str s => s
  | Js.obj _ => "[object Object]"

/-- Property access v.detail style lookup. On a non-object it yields none:
for strings, booleans and objects without the field the access gives
undefined, and on null it throws inside the try block of lines 30-33; both
leave the message at its fallback value, which this none models. -/
def jsGetField (v : Js) (k : String) : Option Js :=
  match v with
  | Js.obj fields => fields.lookup k
  | _ => none

/-- The fetch Response as the error and success paths of apiRequest see it:
the HTTP status, and the outcome of res.json() on the body (error means the
body is not valid JSON). -/
structure Response where
  status : Nat
  body : Except Unit Js

/-- Response.ok of fetch: status in the range 200-299. -/
def resOk (r : Response) : Bool := decide (200 ≤ r.status ∧ r.status ≤ 299)

/-- Error message computation at src/static/js/app.js lines 29-33: start
from the fallback, try to parse the body and take data.detail when truthy,
swallow all failures. -/
def apiErrorMessage (body : Except Unit Js) : String :=
  match body with
  | Except.error _ => "Request failed"
  | Except.ok v =>
    match jsGetField v "detail" with
    | some d => if d.truthyB then d.coerceString else "Request failed"
    | none => "Request failed"

/-- The detail field of a response body, when the body is valid JSON and
the field is present. -/
def detailOf (body : Except Unit Js) : Option Js :=
  match body with
  | Except.error _ => none
  | Except.ok v => jsGetField v "detail"

/-- What apiRequest throws or returns. -/
inductive ApiError where
| thrown (msg : String) : ApiError
| parseRejection : ApiError
deriving DecidableEq

/-- Response handling of apiRequest, src/static/js/app.js lines 28-38:
non-ok statuses throw an Error carrying apiErrorMessage, status 204 returns
null (modelled none) without touching the body, otherwise res.json() is
returned, its parse failure propagating as an uncaught rejection. -/
def apiRequest (r : Response) : Except ApiError (Option Js) :=
  if resOk r then
    if r.status = 204 then Except.ok none
    else
      match r.body with
      | Except.ok v => Except.ok (some v)
      | Except.error _ => Except.error ApiError.parseRejection
  else Except.error (ApiError.thrown (apiErrorMessage r.body))

/-- The view outcome of an auth handler: navigation on success, or a
message written to the inline error element of the form (login-error for
handleLogin, signup-error for handleSignup) with hidden set to false. -/
inductive AuthView where
| navigated (url : String) : AuthView
| inlineError (msg : String) : AuthView
deriving DecidableEq

/-- The login response body as consumed: only access_token is read, a
string when present. -/
structure LoginData where
  access_token : Option String
deriving DecidableEq

/-- handleLogin, src/static/js/app.js lines 42-64, as a function of the
prior store and the outcome of the POST /auth/login call: on success it
stores data.access_token and navigates, on a thrown error it leaves the
store alone and shows the message inline. -/
def handleLogin (store : Option String) (outcome : Except String LoginData) :
    Option String × AuthView :=
  match outcome with
  | Except.ok data => (setToken data.access_token store, AuthView.navigated "/static/dashboard.html")
  | Except.error m => (store, AuthView.inlineError m)

/-- handleSignup, src/static/js/app.js lines 66-93, as a function of the
prior store and the outcomes of the POST /auth/register call and of the
follow-up POST /auth/login call (the latter only reached when the former
succeeds). The single catch block shows either message in signup-error. -/
def handleSignup (store : Option String) (registerOutcome : Except String Unit)
    (loginOutcome : Except String LoginData) : Option String × AuthView :=
  match registerOutcome with
  | Except.error m => (store, AuthView.inlineError m)
  | Except.ok _ =>
    match loginOutcome with
    | Except.error m => (store, AuthView.inlineError m)
    | Except.ok login =>
      (setToken login.access_token store, AuthView.navigated "/static/dashboard.html")

/-- A task as consumed from GET /tasks. time_logged is an Option: none
models a null or missing field, exercised by the two different uses at
src/static/js/app.js lines 115 and 133. -/
structure Task where
  id : Nat
  title : String
  status : String
  time_logged : Option ℚ
deriving DecidableEq

/-- One rendered task row, src/static/js/app.js lines 118-152: the title
text, the class and text of the status pill, the text of the hours cell,
and the task id bound to the delete button click handler of the row. -/
structure TaskRow where
  title : String
  pillClass : String
  pillLabel : String
  timeText : String
  deleteId : Nat
deriving DecidableEq

/-- String.prototype.replace with a string pattern replaces only the first
occurrence; this is the specialisation to pattern underscore and
replacement space used at src/static/js/app.js line 128. -/
def replaceFirstUnderscore : List Char → List Char
  | [] => []
  | c :: cs => if c = '_' then ' ' :: cs else c :: replaceFirstUnderscore cs

/-- The pill label: task.status.replace at src/static/js/app.js line 128. -/
def statusLabel (s : String) : String :=
  String.mk (replaceFirstUnderscore s.data)

/-- Replacement of every underscore by a space, as the spec words the pill
label; compared against statusLabel on the status enum. -/
def replaceAllUnderscores (s : String) : String :=
  String.mk (s.data.map (fun c => if c = '_' then ' ' else c))

/-- Number.prototype.toFixed(1) for non-negative values: round to the
nearest tenth, ties away from zero, and print one digit after the point.
Exact for values, such as the dyadic task hours of the claims, that an
IEEE double represents exactly. -/
def jsToFixed1 (q : ℚ) : String :=
  Nat.repr ((⌊q * 10 + 1 / 2⌋).toNat / 10) ++ "." ++ Nat.repr ((⌊q * 10 + 1 / 2⌋).toNat % 10)

/-- Message of the TypeError thrown at src/static/js/app.js line 133 when
task.time_logged is null or undefined and toFixed is dereferenced. The
exact engine wording is irrelevant to every claim; a fixed stand-in text
keeps the model executable. -/
def timeLoggedTypeErrorMessage : String := "Cannot read properties of null"

/-- Construction of one row, src/static/js/app.js lines 118-152. The hours
cell dereferences task.time_logged unguarded at line 133, so a null value
throws before the row is appended. -/
def renderRow (t : Task) : Except String TaskRow :=
  match t.time_logged with
  | none => Except.error timeLoggedTypeErrorMessage
  | some q =>
    Except.ok (TaskRow.mk t.title ("task-status-pill task-status-" ++ t.status)
      (statusLabel t.status) (jsToFixed1 q ++ "h logged") t.id)

/-- The forEach loop over data.items at src/static/js/app.js lines
114-153, restricted to its row building: rows are built in order and a
throw aborts the loop. -/
def renderRows : List Task → Except String (List TaskRow)
  | [] => Except.ok []
  | t :: ts =>
    match renderRow t with
    | Except.error m => Except.error m
    | Except.ok row =>
      match renderRows ts with
      | Except.error m => Except.error m
      | Except.ok rows => Except.ok (row :: rows)

/-- One step of the done counter at src/static/js/app.js line 116. -/
def doneStep (d : Nat) (t : Task) : Nat :=
  if t.status = "done" then d + 1 else d

/-- One step of the hours accumulator at src/static/js/app.js line 115:
task.time_logged or zero when falsy. -/
def hoursStep (a : ℚ) (t : Task) : ℚ := a + t.time_logged.getD 0

/-- The done counter as the loop computes it. -/
def doneCountFold (items : List Task) : Nat := items.foldl doneStep 0

/-- The hours total as the loop computes it. -/
def totalHoursFold (items : List Task) : ℚ := items.foldl hoursStep 0

/-- The done count as the spec words it: the number of tasks whose status
is done. -/
def doneCount (items : List Task) : Nat :=
  items.countP (fun t => t.status == "done")

/-- The hours total as the spec words it: the sum of time_logged. -/
def totalHours (items : List Task) : ℚ :=
  (items.map (fun t => t.time_logged.getD 0)).sum

/-- The summary line set at src/static/js/app.js lines 155-157. -/
def taskStatsText (items : List Task) : String :=
  Nat.repr items.length ++ " tasks • " ++ Nat.repr (doneCountFold items) ++
    " completed • " ++ jsToFixed1 (totalHoursFold items) ++ "h logged"

/-- The placeholder markup at src/static/js/app.js line 106. -/
def noTasksHtml : String := "<p>No tasks yet. Create your first one above.</p>"

/-- Content of the task-list element after loadTasks: either an innerHTML
assignment or the appended row elements. -/
inductive ListContent where
| html (s : String) : ListContent
| rows (rs : List TaskRow) : ListContent
deriving DecidableEq

/-- loadTasks, src/static/js/app.js lines 96-162, as a function of the
outcome of the GET /tasks call, returning the final content of the
task-list element and the text of the task-stats element. A fetch error or
a throw inside the forEach loop lands in the catch block at lines 158-161,
which overwrites the list with a paragraph holding the error message and
blanks the stats. -/
def loadTasks (fetched : Except String (List Task)) : ListContent × String :=
  match fetched with
  | Except.error m => (ListContent.html ("<p>" ++ m ++ "</p>"), "")
  | Except.ok items =>
    if items.length = 0 then (ListContent.html noTasksHtml, "")
    else
      match renderRows items with
      | Except.error m => (ListContent.html ("<p>" ++ m ++ "</p>"), "")
      | Except.ok rs => (ListContent.rows rs, taskStatsText items)

/-- Outcome of handleNewTask: the handler either runs to completion
(form reset and list reload) or, having no try/catch around its await at
src/static/js/app.js lines 174-177, lets a thrown error escape as an
unhandled promise rejection. -/
inductive NewTaskOutcome where
| completed : NewTaskOutcome
| unhandledRejection (msg : String) : NewTaskOutcome
deriving DecidableEq

/-- handleNewTask, src/static/js/app.js lines 164-181, as a function of
the outcome of the POST /tasks call. -/
def handleNewTask (createOutcome : Except String Unit) : NewTaskOutcome :=
  match createOutcome with
  | Except.ok _ => NewTaskOutcome.completed
  | Except.error m => NewTaskOutcome.unhandledRejection m

/-- The HTTP calls a delete button click can issue. -/
inductive ApiCall where
| deleteTask (id : Nat) : ApiCall
| reloadTasks : ApiCall
deriving DecidableEq

/-- The delete button click handler, src/static/js/app.js lines 140-144,
as a function of the confirm answer and the outcome of the DELETE call:
the list of API calls issued in order, and the message of an unhandled
rejection when the un-caught DELETE throws. -/
def deleteClick (id : Nat) (confirmed : Bool) (deleteOutcome : Except String Unit) :
    List ApiCall × Option String :=
  if confirmed then
    match deleteOutcome with
    | Except.ok _ => ([ApiCall.deleteTask id, ApiCall.reloadTasks], none)
    | Except.error m => ([ApiCall.deleteTask id], some m)
  else ([], none)

/-- The worked example of the spec: two tasks, one done with 2.25 hours,
one todo with 1.0 hours. -/
def exampleTasks : List Task :=
  [Task.mk 1 "A" "done" (some (9 / 4)), Task.mk 2 "B" "todo" (some 1)]

-- Helper lemmas

theorem jsToFixed1_eval (q : ℚ) (m : ℕ) (h1 : (m : ℚ) ≤ q * 10 + 1 / 2)
    (h2 : q * 10 + 1 / 2 < m + 1) :
    jsToFixed1 q = Nat.repr (m / 10) ++ "." ++ Nat.repr (m % 10) := by
  have hf : ⌊q * 10 + 1 / 2⌋ = (m : ℤ) :=
    Int.floor_eq_iff.mpr ⟨by exact_mod_cast h1, by exact_mod_cast h2⟩
  simp only [jsToFixed1]
  rw [hf]
  simp

theorem foldl_doneStep (items : List Task) (n : Nat) :
    items.foldl doneStep n = n + doneCount items := by
  induction items generalizing n with
  | nil => simp [doneCount]
  | cons t ts ih =>
    by_cases h : t.status = "done" <;>
      simp [doneCount, doneStep, List.countP_cons, h, ih, List.foldl_cons] <;> omega

theorem foldl_hoursStep (items : List Task) (a : ℚ) :
    items.foldl hoursStep a = a + totalHours items := by
  induction items generalizing a with
  | nil => simp [totalHours]
  | cons t ts ih =>
    simp [totalHours, hoursStep, ih, List.foldl_cons]
    ring

theorem renderRows_ok_of_total (items : List Task)
    (h : ∀ t ∈ items, t.time_logged ≠ none) :
    ∃ rs, renderRows items = Except.ok rs ∧ rs.length = items.length := by
  induction items with
  | nil => exact ⟨[], rfl, rfl⟩
  | cons t ts ih =>
    obtain ⟨rs, hrs, hlen⟩ := ih (fun x hx => h x (List.mem_cons_of_mem _ hx))
    cases hq : t.time_logged with
    | none => exact absurd hq (h t (List.mem_cons_self _ _))
    | some q =>
      refine ⟨TaskRow.mk t.title ("task-status-pill task-status-" ++ t.status)
        (statusLabel t.status) (jsToFixed1 q ++ "h logged") t.id :: rs, ?_, ?_⟩
      · simp [renderRows, renderRow, hq, hrs]
      · simp [hlen]

theorem renderRows_err_of_none (items : List Task)
    (h : ∃ t ∈ items, t.time_logged = none) :
    renderRows items = Except.error timeLoggedTypeErrorMessage := by
  induction items with
  | nil => simp at h
  | cons t ts ih =>
    cases hq : t.time_logged with
    | none => simp [renderRows, renderRow, hq]
    | some q =>
      obtain ⟨x, hx, hxn⟩ := h
      rcases List.mem_cons.mp hx with rfl | hmem
      · rw [hq] at hxn; exact absurd hxn (by simp)
      · have := ih ⟨x, hmem, hxn⟩
        simp [renderRows, renderRow, hq, this]

-- Claim theorems

/-- Claim C1, counterexample: with a token already stored before signup, a
successful registration followed by a failing login leaves the old token
in the store, so the store is not empty as the claim asserts, although the
login error message is displayed. -/
theorem handleSignup_loginFail_counterexample :
    handleSignup (some "old") (Except.ok ()) (Except.error "Invalid credentials") =
      (some "old", AuthView.inlineError "Invalid credentials") ∧
    some "old" ≠ (none : Option String) :=
  ⟨rfl, by decide⟩

/-- Claim C1, amended: if registration succeeds and the follow-up login
throws, handleSignup leaves the session store exactly as it was before the
call (in particular it stores no new token, and the store is empty
afterwards only when it was empty before), and the login error message is
displayed in the signup inline error element. -/
theorem handleSignup_loginFail_unchanged (store : Option String) (m : String) :
    handleSignup store (Except.ok ()) (Except.error m) = (store, AuthView.inlineError m) :=
  rfl

/-- Claim C2, counterexample: a 400 response whose body is valid JSON with
a detail field present but equal to the empty string is thrown with the
fallback message, not with the detail value. -/
theorem apiRequest_emptyDetail_counterexample :
    apiRequest (Response.mk 400 (Except.ok (Js.obj [("detail", Js.str "")]))) =
      Except.error (ApiError.thrown "Request failed") ∧
    detailOf (Except.ok (Js.obj [("detail", Js.str "")])) = some (Js.str "") ∧
    "Request failed" ≠ "" :=
  ⟨rfl, rfl, by decide⟩

/-- Claim C2, amended: for every response with a non-2xx status apiRequest
throws, and the thrown message equals the detail field of the body when
the body is valid JSON with a truthy detail present (for a string detail:
non-empty), and equals the fixed fallback Request failed when detail is
absent, when it is falsy (for example the empty string), or when the body
is not valid JSON. -/
theorem apiRequest_nonOk_throws (r : Response) (h : resOk r = false) :
    apiRequest r = Except.error (ApiError.thrown (apiErrorMessage r.body)) ∧
    (∀ s : String, detailOf r.body = some (Js.str s) → s ≠ "" →
      apiErrorMessage r.body = s) ∧
    (detailOf r.body = none → apiErrorMessage r.body = "Request failed") ∧
    (∀ d : Js, detailOf r.body = some d → d.truthyB = false →
      apiErrorMessage r.body = "Request failed") := by
  refine ⟨by simp [apiRequest, h], ?_, ?_, ?_⟩
  · intro s hs hne
    cases hb : r.body with
    | error u => rw [hb] at hs; simp [detailOf] at hs
    | ok v =>
      rw [hb] at hs
      simp only [detailOf] at hs
      simp [apiErrorMessage, hs, Js.truthyB, Js.coerceString, hne]
  · intro hnone
    cases hb : r.body with
    | error u => simp [apiErrorMessage]
    | ok v =>
      rw [hb] at hnone
      simp only [detailOf] at hnone
      simp [apiErrorMessage, hnone]
  · intro d hd hfalse
    cases hb : r.body with
    | error u => simp [apiErrorMessage]
    | ok v =>
      rw [hb] at hd
      simp only [detailOf] at hd
      simp [apiErrorMessage, hd, hfalse]

/-- Claim C2, witness: a 500 response with a non-empty string detail is
thrown with that detail as the message. -/
theorem apiRequest_nonOk_throws_witness :
    apiRequest (Response.mk 500 (Except.ok (Js.obj [("detail", Js.str "boom")]))) =
      Except.error (ApiError.thrown "boom") := by
  have h := apiRequest_nonOk_throws
    (Response.mk 500 (Except.ok (Js.obj [("detail", Js.str "boom")]))) (by decide)
  have h2 := h.2.1 "boom" rfl (by decide)
  rw [h.1, h2]

/-- Claim C3, counterexample: a failing POST /tasks call inside
handleNewTask, which has no try/catch, escapes as an unhandled rejection
instead of being caught and displayed. -/
theorem handleNewTask_uncaught_counterexample :
    handleNewTask (Except.error "boom") = NewTaskOutcome.unhandledRejection "boom" ∧
    handleNewTask (Except.error "boom") ≠ NewTaskOutcome.completed :=
  ⟨rfl, by decide⟩

/-- Claim C3, amended: login, signup and task-list-load failures surface
as inline text near the form or replace the task list content, but a
create-task failure and a delete-call failure are not caught by their
handlers and propagate as unhandled rejections. -/
theorem controller_error_surfacing (store : Option String) (m : String)
    (lo : Except String LoginData) :
    (handleLogin store (Except.error m)).2 = AuthView.inlineError m ∧
    (handleSignup store (Except.error m) lo).2 = AuthView.inlineError m ∧
    (handleSignup store (Except.ok ()) (Except.error m)).2 = AuthView.inlineError m ∧
    loadTasks (Except.error m) = (ListContent.html ("<p>" ++ m ++ "</p>"), "") ∧
    handleNewTask (Except.error m) = NewTaskOutcome.unhandledRejection m ∧
    (∀ id, deleteClick id true (Except.error m) = ([ApiCall.deleteTask id], some m)) :=
  ⟨rfl, rfl, rfl, rfl, rfl, fun _ => rfl⟩

/-- Claim C4: for a fetched list whose tasks all carry an hours value, the
empty list renders exactly the placeholder markup with an empty summary,
and a non-empty list of N tasks renders exactly N rows together with a
summary equal to the task count, the done count and the hours sum printed
to one decimal place. -/
theorem loadTasks_renders_list (items : List Task)
    (h : ∀ t ∈ items, t.time_logged ≠ none) :
    (items = [] → loadTasks (Except.ok items) = (ListContent.html noTasksHtml, "")) ∧
    (items ≠ [] → ∃ rs, loadTasks (Except.ok items) =
      (ListContent.rows rs,
        Nat.repr items.length ++ " tasks • " ++ Nat.repr (doneCount items) ++
          " completed • " ++ jsToFixed1 (totalHours items) ++ "h logged") ∧
      rs.length = items.length) := by
  constructor
  · intro he; subst he; rfl
  · intro hne
    obtain ⟨rs, hrs, hlen⟩ := renderRows_ok_of_total items h
    refine ⟨rs, ?_, hlen⟩
    have hlz : ¬ items.length = 0 := by
      simpa [List.length_eq_zero] using hne
    simp only [loadTasks, hrs, if_neg hlz]
    simp [taskStatsText, doneCountFold, totalHoursFold, foldl_doneStep, foldl_hoursStep]

/-- Claim C4, witness: the worked example of the spec renders two rows and
the summary 2 tasks, 1 completed, 3.3h logged. -/
theorem loadTasks_renders_list_witness :
    ∃ rs, loadTasks (Except.ok exampleTasks) =
      (ListContent.rows rs, "2 tasks • 1 completed • 3.3h logged") ∧ rs.length = 2 := by
  obtain ⟨rs, h1, h2⟩ :=
    (loadTasks_renders_list exampleTasks (by decide)).2 (by decide)
  have ht : totalHours exampleTasks = 13 / 4 := by
    norm_num [totalHours, exampleTasks]
  have hj : jsToFixed1 ((13 : ℚ) / 4) = "3.3" := by
    rw [jsToFixed1_eval ((13 : ℚ) / 4) 33 (by norm_num) (by norm_num)]
    decide
  have hd : doneCount exampleTasks = 1 := by decide
  rw [ht, hj, hd] at h1
  refine ⟨rs, ?_, h2.trans (by decide)⟩
  rw [h1]
  exact congrArg (Prod.mk (ListContent.rows rs)) (by decide)

/-- Claim C5: the outgoing headers are the Object.assign merge of the
default content-type header, the caller headers and, for a stored
non-empty token, the Authorization bearer header, with the Authorization
header overriding any colliding caller header, and every other key taken
from the caller headers over the defaults. -/
theorem apiRequest_headers_auth_precedence (caller : HeaderMap) (t : String)
    (ht : t ≠ "") :
    apiRequestHeaders caller (some t) "Authorization" = some ("Bearer " ++ t) ∧
    (∀ k, k ≠ "Authorization" →
      apiRequestHeaders caller (some t) k = objAssign defaultHeaders caller k) ∧
    (∀ k, apiRequestHeaders caller none k = objAssign defaultHeaders caller k) := by
  refine ⟨?_, ?_, ?_⟩
  · simp [apiRequestHeaders, objAssign, authHeaders, if_neg ht]
  · intro k hk
    simp [apiRequestHeaders, objAssign, authHeaders, if_neg ht, if_neg hk]
  · intro k
    simp [apiRequestHeaders, objAssign, authHeaders, emptyHeaders]

/-- Claim C5, witness: a caller header colliding on the Authorization key
is overridden by the bearer header built from the stored token. -/
theorem apiRequest_headers_auth_precedence_witness :
    apiRequestHeaders (fun k => if k = "Authorization" then some "Bearer evil" else none)
      (some "tok") "Authorization" = some "Bearer tok" := by
  have h := (apiRequest_headers_auth_precedence
    (fun k => if k = "Authorization" then some "Bearer evil" else none) "tok" (by decide)).1
  exact h

/-- Claim C6: an affirmed confirmation issues exactly one DELETE call for
the task id followed by exactly one reload once the delete completes; a
declined confirmation issues neither, whatever the delete outcome would
have been. -/
theorem deleteButton_calls (id : Nat) (o : Except String Unit) :
    deleteClick id true (Except.ok ()) = ([ApiCall.deleteTask id, ApiCall.reloadTasks], none) ∧
    deleteClick id false o = ([], none) :=
  ⟨rfl, rfl⟩

/-- Claim C7: a task of the status enum with an hours value renders to a
row showing its title, a status pill labelled with the status string with
underscores replaced by spaces, the hours printed to one decimal place,
and a delete button bound to its id. -/
theorem loadTasks_row_content (t : Task) (q : ℚ)
    (hs : t.status = "todo" ∨ t.status = "in_progress" ∨ t.status = "done")
    (hq : t.time_logged = some q) :
    renderRow t = Except.ok (TaskRow.mk t.title
      ("task-status-pill task-status-" ++ t.status)
      (replaceAllUnderscores t.status) (jsToFixed1 q ++ "h logged") t.id) := by
  have hlabel : statusLabel t.status = replaceAllUnderscores t.status := by
    rcases hs with h | h | h <;> rw [h] <;> decide
  simp [renderRow, hq, hlabel]

/-- Claim C7, witness: a task in progress with 1.5 hours renders its
title, the pill label in progress, the text 1.5h logged and the delete
button carrying its id. -/
theorem loadTasks_row_content_witness :
    renderRow (Task.mk 7 "Write spec" "in_progress" (some (3 / 2))) =
      Except.ok (TaskRow.mk "Write spec" "task-status-pill task-status-in_progress"
        "in progress" "1.5h logged" 7) := by
  have h := loadTasks_row_content (Task.mk 7 "Write spec" "in_progress" (some (3 / 2)))
    (3 / 2) (Or.inr (Or.inl rfl)) rfl
  have hj : jsToFixed1 ((3 : ℚ) / 2) = "1.5" := by
    rw [jsToFixed1_eval ((3 : ℚ) / 2) 15 (by norm_num) (by norm_num)]
    decide
  refine h.trans (congrArg Except.ok ?_)
  rw [hj]
  decide

/-- Claim C8, counterexample: a successful login response whose
access_token is the empty string clears the store instead of storing the
empty string, so with a prior token the stored value afterwards is absent
and differs from the access_token field. -/
theorem handleLogin_emptyToken_counterexample :
    handleLogin (some "old") (Except.ok (LoginData.mk (some ""))) =
      (none, AuthView.navigated "/static/dashboard.html") ∧
    (none : Option String) ≠ some "" :=
  ⟨rfl, by decide⟩

/-- Claim C8, amended: after a successful login whose access_token is a
non-empty string, the stored token equals that access_token and no prior
value persists; a missing or empty access_token instead clears the store
(navigation happens in every success case). -/
theorem handleLogin_stores_access_token (store : Option String) (t : String)
    (ht : t ≠ "") :
    handleLogin store (Except.ok (LoginData.mk (some t))) =
      (some t, AuthView.navigated "/static/dashboard.html") ∧
    handleLogin store (Except.ok (LoginData.mk none)) =
      (none, AuthView.navigated "/static/dashboard.html") ∧
    handleLogin store (Except.ok (LoginData.mk (some ""))) =
      (none, AuthView.navigated "/static/dashboard.html") := by
  refine ⟨?_, rfl, rfl⟩
  simp [handleLogin, setToken, if_neg ht]

/-- Claim C8, witness: logging in over a stored old token with access
token tok leaves exactly tok stored. -/
theorem handleLogin_stores_access_token_witness :
    handleLogin (some "old") (Except.ok (LoginData.mk (some "tok"))) =
      (some "tok", AuthView.navigated "/static/dashboard.html") :=
  (handleLogin_stores_access_token (some "old") "tok" (by decide)).1

/-- Claim C9: a 204 response makes apiRequest return the absent value for
every possible body outcome, including a body that is not valid JSON, so
the body is never parsed. -/
theorem apiRequest_204_null (body : Except Unit Js) :
    apiRequest (Response.mk 204 body) = Except.ok none :=
  rfl

/-- Claim C10: a fetched list containing a task with an absent hours value
makes the row building throw, landing in the catch block, so loadTasks
replaces the list content with the error message paragraph and blanks the
stats, even though the running hours total treats the same absent value as
zero. -/
theorem loadTasks_null_time_logged (items : List Task)
    (h : ∃ t ∈ items, t.time_logged = none) :
    loadTasks (Except.ok items) =
      (ListContent.html ("<p>" ++ timeLoggedTypeErrorMessage ++ "</p>"), "") ∧
    (∀ (a : ℚ) (t : Task), t.time_logged = none → hoursStep a t = a) := by
  constructor
  · obtain ⟨x, hx, hxn⟩ := h
    have hne : ¬ items.length = 0 := by
      intro hl
      rw [List.length_eq_zero] at hl
      subst hl
      simp at hx
    have herr := renderRows_err_of_none items ⟨x, hx, hxn⟩
    simp only [loadTasks]
    rw [if_neg hne, herr]
  · intro a t htn
    simp [hoursStep, htn]

/-- Claim C10, witness: a single task with a null hours value makes
loadTasks show the type error message and an empty summary. -/
theorem loadTasks_null_time_logged_witness :
    loadTasks (Except.ok [Task.mk 1 "A" "todo" none]) =
      (ListContent.html ("<p>" ++ timeLoggedTypeErrorMessage ++ "</p>"), "") :=
  (loadTasks_null_time_logged [Task.mk 1 "A" "todo" none] ⟨Task.mk 1 "A" "todo" none,
    by decide, rfl⟩).1

end App
